import Mathlib

/-
Verification of the concurrent multi-source aggregation, deduplication and
ranking engine of src/backend/app.py (Flask application).

Shallow-embedding conventions used throughout this development:
  * Python strings are `List Char` (ASCII fragment; `str.lower`, `str.strip`,
    `str.split`, the regex substitutions `[^\w\s] -> ""` and `\s+ -> " "`,
    and the substring test `in` are modelled char-by-char below).
  * An MD5 digest of a normalized string is modelled by the normalized string
    itself: two digests are equal exactly when the normalized inputs are equal
    (collision-freedom of the hash is assumed, as the source does).
  * Python `list.sort(key=..., reverse=True)` is a stable descending sort;
    a stable sort is uniquely determined by its (total, transitive) comparison,
    so it is embedded as `List.insertionSort` with the relation
    "left score is at least right score".
  * `dict` records become structures carrying exactly the fields the engine
    reads; a field that a record may lack (`dict.get` with a default) is
    either an `Option` or defaults to the Python default value.
  * Network calls / thread scheduling are made explicit: each adapter task is
    an input value (`Option (List Job)`: `none` models a task whose
    `future.result` raised, `some jobs` the list it returned, `[]` included,
    since `_safe_search` converts adapter exceptions to `[]`), and the
    nondeterministic completion order of `as_completed` is an explicit
    index list parameter.
  * `datetime.now()` is made an explicit integer parameter (`today`, a day
    number); a `posted_date` string is modelled as the `Option Int` day
    number it parses to (`none` for absent or unparsable dates).
-/

namespace SymbiosisCareer

/-- Python strings, modelled as character lists. -/
abbrev Str := List Char

/-- Characters matched by the regex class `\s` (ASCII fragment), also the
characters stripped by `str.strip()` and split on by `str.split()`. -/
def isPySpace (c : Char) : Bool :=
  c = ' ' || c = '\t' || c = '\n' || c = '\r' || c = '\x0b' || c = '\x0c'

/-- Characters matched by the regex class `\w` (ASCII fragment). -/
def isPyWordChar (c : Char) : Bool :=
  c.isAlpha || c.isDigit || c = '_'

/-- Python `str.lower()` (ASCII fragment). -/
def pyLower (s : Str) : Str := s.map Char.toLower

/-- Python `str.strip()`: drop leading and trailing whitespace. -/
def pyStrip (s : Str) : Str :=
  ((s.dropWhile isPySpace).reverse.dropWhile isPySpace).reverse

/-- Python's substring test `needle in haystack`. -/
def pyIn (needle : Str) : Str → Bool
  | [] => decide (needle = [])
  | c :: rest => needle.isPrefixOf (c :: rest) || pyIn needle rest

/-- Python `str.split()` with no separator: split on whitespace runs,
discarding empty fields. -/
def pySplit (s : Str) : List Str :=
  (s.splitOnP isPySpace).filter (fun w => !w.isEmpty)

/-- Python slicing `l[:k]` for an arbitrary integer bound `k`: a nonnegative
bound takes the first `k` elements, a negative bound drops the last `-k`. -/
def pyTake (k : Int) (l : List α) : List α :=
  if 0 ≤ k then l.take k.toNat else l.take (l.length - (-k).toNat)

/-- Regex substitution `re.sub(r'[^\w\s]', '', s)`: delete every character
that is neither a word character nor whitespace. -/
def stripPunct (s : Str) : Str :=
  s.filter (fun c => isPyWordChar c || isPySpace c)

/-- Regex substitution `re.sub(r'\s+', ' ', s)`: replace every maximal run of
whitespace by a single space. -/
def collapseWs : Str → Str
  | [] => []
  | [c] => if isPySpace c then [' '] else [c]
  | c1 :: c2 :: rest =>
    if isPySpace c1 && isPySpace c2 then collapseWs (c2 :: rest)
    else (if isPySpace c1 then ' ' else c1) :: collapseWs (c2 :: rest)

/-- An interview-question record, with exactly the fields the engine reads
(`question`, `domain`, `company`, `credibility_score`, `year`,
`question_type`, `difficulty`, and the `relevance_score` / `solution` fields
the pipeline writes). `credibility_score` is a `Nat` because
`_analyze_source_credibility` only ever produces nonnegative values. -/
structure Question where
  question : Str
  domain : Str
  company : Str
  credibility_score : Nat
  year : Option Int
  question_type : Str
  difficulty : Str
  relevance_score : Int
  solution : Str
  deriving Repr, DecidableEq

/-- A raw job record, with exactly the fields the engine reads, plus the
`relevance_score` field the ranking step writes (Python default 0 for the
missing key). `posted_date` is the day number the `%Y-%m-%d` string parses
to, `none` when absent or unparsable. -/
structure Job where
  title : Str
  company : Str
  url : Str
  description : Str
  source : Str
  experience_level : Str
  job_type : Str
  posted_date : Option Int
  relevance_score : Int
  deriving Repr, DecidableEq

/-- Generic first-seen-wins deduplication loop over a key function, with the
set of already-seen keys as an explicit accumulator (the source keeps it in
the local variable `seen_hashes` / `seen_jobs`). -/
def dedupByKeyAux (key : α → Str) : List α → List Str → List α
  | [], _ => []
  | x :: xs, seen =>
    if key x ∈ seen then dedupByKeyAux key xs seen
    else x :: dedupByKeyAux key xs (key x :: seen)

namespace InterviewQuestionAPI

/-- DedupKey of `InterviewQuestionAPI._remove_duplicate_questions`
(app.py:1242-1250): lower-case, strip, delete punctuation, collapse
whitespace; the MD5 digest is modelled by the normalized text itself. -/
def questionKey (question : Question) : Str :=
  collapseWs (stripPunct (pyStrip (pyLower question.question)))

/-- Embeds `InterviewQuestionAPI._remove_duplicate_questions`
(app.py:1234-1256): keep the first question of each normalized-key class. -/
def _remove_duplicate_questions (questions : List Question) : List Question :=
  dedupByKeyAux questionKey questions []

/-- Embeds `InterviewQuestionAPI._calculate_relevance_score`
(app.py:1277-1314): weighted sum of domain match, company match, source
credibility, recency by year, question-type and difficulty bonuses. -/
def _calculate_relevance_score (question : Question) (domain : Str)
    (company : Option Str) : Int :=
  let question_text := pyLower question.question
  let question_domain := pyLower question.domain
  let question_company := pyLower question.company
  let s1 : Int :=
    if pyIn (pyLower domain) question_text || pyIn (pyLower domain) question_domain
    then 5 else 0
  let s2 : Int :=
    match company with
    | some c => if !c.isEmpty && pyIn (pyLower c) question_company then 8 else 0
    | none => 0
  let s3 : Int := question.credibility_score
  let s4 : Int :=
    match question.year with
    | some y => if 2023 ≤ y then 3 else if 2020 ≤ y then 1 else 0
    | none => 0
  let s5 : Int :=
    if question.question_type = "Coding".toList ∨
       question.question_type = "System Design".toList
    then 2 else 0
  let s6 : Int :=
    if question.difficulty = "Medium".toList then 2
    else if question.difficulty = "Hard".toList then 1 else 0
  s1 + s2 + s3 + s4 + s5 + s6

/-- Descending order on stored relevance scores: the sort key
`lambda x: x['relevance_score']` with `reverse=True`. -/
def scoreDescQ (a b : Question) : Prop :=
  b.relevance_score ≤ a.relevance_score

instance : DecidableRel scoreDescQ := fun _ _ => Int.decLe _ _

instance : IsTotal Question scoreDescQ := ⟨fun a b => Int.le_total b.relevance_score a.relevance_score⟩

instance : IsTrans Question scoreDescQ := ⟨fun _ _ _ h1 h2 => le_trans h2 h1⟩

/-- Scoring loop of `_filter_relevant_questions` (app.py:1264-1270): score
each question, keep those above the minimum relevance threshold 3, storing
the score on the kept record. -/
def scoredQuestions (questions : List Question) (domain : Str)
    (company : Option Str) : List Question :=
  questions.filterMap (fun q =>
    let score := _calculate_relevance_score q domain company
    if 3 < score then some { q with relevance_score := score } else none)

/-- Embeds `InterviewQuestionAPI._filter_relevant_questions`
(app.py:1258-1275): threshold filter followed by the stable descending sort
`scored_questions.sort(key=..., reverse=True)`. -/
def _filter_relevant_questions (questions : List Question) (domain : Str)
    (company : Option Str) : List Question :=
  List.insertionSort scoreDescQ (scoredQuestions questions domain company)

/-- Embeds `InterviewQuestionAPI._enhance_questions_with_detailed_solutions`
(app.py:1316-1357). The AI enrichment collaborator (and its static fallback
on failure) is the black-box parameter `solve`; every question is appended
exactly once, with its solution filled in, so the batching and rate-limit
delays of the source are irrelevant to the result. -/
def _enhance_questions_with_detailed_solutions (solve : Question → Str)
    (questions : List Question) : List Question :=
  questions.map (fun q => { q with solution := solve q })

/-- Collection loop of `InterviewQuestionAPI.search_interview_questions`
(app.py:729-760). Each `chunk` is one batch of questions produced by the
black-box extraction/scraping helpers for one search result; the loop stops
once `question_count` questions are gathered and caps every extension at the
remaining capacity (`[:question_count - len(all_questions)]`). -/
def gatherUpTo (question_count : Int) : List (List Question) → List Question → List Question
  | [], acc => acc
  | chunk :: rest, acc =>
    if question_count ≤ (acc.length : Int) then acc
    else gatherUpTo question_count rest (acc ++ pyTake (question_count - acc.length) chunk)

/-- Embeds `InterviewQuestionAPI.search_interview_questions`
(app.py:719-786): gather up to `question_count` raw questions, remove
duplicates, filter and rank by relevance, truncate to `question_count`, then
enhance with solutions. The Python default for `question_count` is 10. -/
def search_interview_questions (chunks : List (List Question)) (domain : Str)
    (company : Option Str) (solve : Question → Str) (question_count : Int) :
    List Question :=
  let all_questions := gatherUpTo question_count chunks []
  let unique_questions := _remove_duplicate_questions all_questions
  let relevant_questions := _filter_relevant_questions unique_questions domain company
  let relevant_questions := pyTake question_count relevant_questions
  _enhance_questions_with_detailed_solutions solve relevant_questions

end InterviewQuestionAPI

namespace JobSearchEngine

/-- Embeds `JobSearchEngine._create_job_hash` (app.py:1827-1838): lower-case
and strip title and company, delete punctuation from and collapse whitespace
in the title, and key on the combined string `f"{title}_{company}"`; the MD5
digest is modelled by the combined string itself. -/
def _create_job_hash (job : Job) : Str :=
  let title := pyStrip (pyLower job.title)
  let company := pyStrip (pyLower job.company)
  let title := collapseWs (stripPunct title)
  title ++ ('_' :: company)

/-- Embeds `JobSearchEngine._is_valid_job` (app.py:1840-1843): title, company
and url must all be truthy with truthy `strip()`, i.e. nonempty after
stripping whitespace. -/
def _is_valid_job (job : Job) : Bool :=
  !(pyStrip job.title).isEmpty && !(pyStrip job.company).isEmpty &&
    !(pyStrip job.url).isEmpty

/-- Keyword list of `_calculate_relevance` (app.py:1865-1867). -/
def ai_ml_keywords : List Str :=
  ["ai".toList, "ml".toList, "machine learning".toList,
   "artificial intelligence".toList, "deep learning".toList,
   "neural network".toList, "nlp".toList, "computer vision".toList,
   "data science".toList, "tensorflow".toList, "pytorch".toList]

/-- Keyword-matching loop of `_calculate_relevance` (app.py:1857-1873): for
each keyword, add `wTitle` when it occurs in the title and `wDesc` when it
occurs in the description. -/
def keywordBonus (wTitle wDesc : Int) (title description : Str)
    (kws : List Str) : Int :=
  kws.foldl (fun s kw =>
    s + (if pyIn kw title then wTitle else 0) +
      (if pyIn kw description then wDesc else 0)) 0

/-- Embeds `JobSearchEngine._calculate_relevance` (app.py:1845-1909).
`today` is the explicit day number that `datetime.now()` evaluates to at
scoring time; the recency bonus compares `today - posted_date` against the
7- and 30-day thresholds exactly as the source does. -/
def _calculate_relevance (job : Job) (job_role : Str) (today : Int) : Int :=
  let title := pyLower job.title
  let description := pyLower job.description
  let job_role_lower := pyLower job_role
  let s1 : Int := if pyIn job_role_lower title then 20 else 0
  let s2 : Int := keywordBonus 8 3 title description (pySplit job_role_lower)
  let s3 : Int := keywordBonus 10 5 title description ai_ml_keywords
  let source := pyLower job.source
  let s4 : Int :=
    if pyIn ("linkedin".toList) source then 8
    else if pyIn ("naukri".toList) source then 6
    else if pyIn ("indeed".toList) source then 4 else 0
  let exp_level := pyLower job.experience_level
  let s5 : Int :=
    if ["entry".toList, "fresher".toList, "0-1".toList,
        "graduate".toList].any (fun w => pyIn w exp_level)
    then 10 else 0
  let job_type := pyLower job.job_type
  let s6 : Int :=
    if job_type = "full-time".toList then 5
    else if job_type = "internship".toList then 3 else 0
  let s7 : Int :=
    match job.posted_date with
    | some d =>
      let days_old := today - d
      if days_old ≤ 7 then 8 else if days_old ≤ 30 then 4 else 0
    | none => 0
  s1 + s2 + s3 + s4 + s5 + s6 + s7

/-- Descending order on stored job relevance scores: the sort key
`lambda x: x.get('relevance_score', 0)` with `reverse=True` (the dedup loop
stores a score on every surviving job before the sort runs). -/
def scoreDescJ (a b : Job) : Prop :=
  b.relevance_score ≤ a.relevance_score

instance : DecidableRel scoreDescJ := fun _ _ => Int.decLe _ _

instance : IsTotal Job scoreDescJ := ⟨fun a b => Int.le_total b.relevance_score a.relevance_score⟩

instance : IsTrans Job scoreDescJ := ⟨fun _ _ _ h1 h2 => le_trans h2 h1⟩

/-- Deduplication-and-scoring loop of `_remove_duplicates_and_rank`
(app.py:1809-1820), with the `seen_jobs` set as an explicit accumulator: a
job is kept when its hash is unseen and it is valid, in which case its hash
is recorded and its relevance score stored on the record. -/
def dedupScoreJobs (job_role : Str) (today : Int) :
    List Job → List Str → List Job
  | [], _ => []
  | job :: jobs, seen =>
    let job_hash := _create_job_hash job
    if job_hash ∉ seen ∧ _is_valid_job job = true then
      { job with relevance_score := _calculate_relevance job job_role today } ::
        dedupScoreJobs job_role today jobs (job_hash :: seen)
    else dedupScoreJobs job_role today jobs seen

/-- Embeds `JobSearchEngine._remove_duplicates_and_rank` (app.py:1807-1825):
first-seen-wins deduplication of valid jobs, stable descending sort by
relevance score, truncation to the top 50. -/
def _remove_duplicates_and_rank (jobs : List Job) (job_role : Str)
    (today : Int) : List Job :=
  (List.insertionSort scoreDescJ (dedupScoreJobs job_role today jobs [])).take 50

/-- Submission-order list of adapter names (app.py:1714); the tasks at
app.py:1697-1711 are submitted in exactly this order. -/
def source_names : List Str :=
  ["linkedin".toList, "naukri".toList, "indeed".toList,
   "freshersworld".toList, "monster".toList]

/-- Name assigned to the completion-rank index `i` (app.py:1719):
`source_names[i] if i < len(source_names) else f"source_{i}"`. -/
def sourceNameAt (i : Nat) : Str :=
  if h : i < source_names.length then source_names.get ⟨i, h⟩
  else "source_".toList ++ Nat.toDigits 10 i

/-- Collection loop of `comprehensive_job_search` (app.py:1716-1732).
`outcomes` holds, per submitted task index, `none` when `future.result`
raised (timeout; the iteration is skipped by `continue`) and `some jobs`
when it returned. `order` is the order in which `as_completed` yields the
futures, as a list of task indices; `i` is the `enumerate` counter, which
advances on every yielded future, skipped or not. A successful future's
jobs are recorded under `source_names[i]` — the completion rank, not the
index of the task that produced them — and appended to the running
`all_jobs` list. -/
def collectLoop (outcomes : List (Option (List Job))) :
    List Nat → Nat → List (Str × List Job) → List Job →
    List (Str × List Job) × List Job
  | [], _, sources, all_jobs => (sources, all_jobs)
  | idx :: rest, i, sources, all_jobs =>
    match outcomes.getD idx none with
    | none => collectLoop outcomes rest (i + 1) sources all_jobs
    | some source_jobs =>
      collectLoop outcomes rest (i + 1)
        (sources ++ [(sourceNameAt i, source_jobs)]) (all_jobs ++ source_jobs)

/-- Final `results` dictionary of `comprehensive_job_search`
(app.py:1672-1745), restricted to the fields the claims are about. -/
structure SearchResults where
  job_role : Str
  total_jobs : Nat
  sources : List (Str × List Job)
  all_jobs : List Job
  search_status : Str
  source_breakdown : List (Str × Nat)
  deriving Repr, DecidableEq

/-- Per-source count table of `_generate_search_summary` (app.py:1926-1928):
one entry per recorded source, mapping its name to the length of its list. -/
def summarySourceBreakdown (sources : List (Str × List Job)) :
    List (Str × Nat) :=
  sources.map (fun p => (p.1, p.2.length))

/-- Embeds `JobSearchEngine.comprehensive_job_search` (app.py:1669-1753):
collect adapter results in completion order, deduplicate and rank the merged
list, and finalize the session. The status is set to `completed`
unconditionally after the collection loop (app.py:1742); `_safe_search`
(app.py:1799-1805) has already converted adapter exceptions into `[]`, and a
`future.result` failure is skipped by `continue`, so no adapter behaviour
reaches the `failed` branch of the outer handler. -/
def comprehensive_job_search (job_role : Str) (today : Int)
    (outcomes : List (Option (List Job))) (order : List Nat) : SearchResults :=
  let collected := collectLoop outcomes order 0 [] []
  let ranked := _remove_duplicates_and_rank collected.2 job_role today
  { job_role := job_role
    total_jobs := ranked.length
    sources := collected.1
    all_jobs := ranked
    search_status := "completed".toList
    source_breakdown := summarySourceBreakdown collected.1 }

/-- Embeds `JobSearchEngine.search_interview_questions` (app.py:1755-1797):
the engine calls `self.interview_api.search_interview_questions(domain,
company, difficulty)` WITHOUT forwarding `question_count` (app.py:1767), so
the API runs with its default target of 10, and the engine then truncates
the returned list to `question_count` (app.py:1770). -/
def search_interview_questions (chunks : List (List Question)) (domain : Str)
    (company : Option Str) (solve : Question → Str) (question_count : Int) :
    List Question :=
  pyTake question_count
    (InterviewQuestionAPI.search_interview_questions chunks domain company solve 10)

end JobSearchEngine

namespace App

/-- Outcome of a Flask route handler: an immediate HTTP 400 validation
error, or acceptance — the route starts the background search thread and
returns 200 (`accepted` carries the arguments handed to the thread). -/
inductive RouteOutcome (α : Type) where
  | badRequest (message : Str) : RouteOutcome α
  | accepted (value : α) : RouteOutcome α
  deriving Repr, DecidableEq

/-- Truth of "a background search was dispatched" for a route outcome; a
`badRequest` outcome starts no thread and thus records zero adapter calls. -/
def dispatchesSearch : RouteOutcome α → Bool
  | .badRequest _ => false
  | .accepted _ => true

/-- JSON body of a `/search-jobs` request, restricted to the fields the
route reads (`filters` is passed through opaquely and omitted). A missing
key is `none`; `dict.get` defaults apply below. -/
structure JobRequest where
  job_role : Option Str
  location : Option Str
  deriving Repr, DecidableEq

/-- Embeds the `/search-jobs` route `search_jobs` (app.py:2116-2155):
reject a missing body, an empty job role, or a job role shorter than 2
characters, all before the search thread is started; otherwise dispatch. -/
def search_jobs (data : Option JobRequest) : RouteOutcome (Str × Str) :=
  match data with
  | none => .badRequest ("No JSON data provided".toList)
  | some d =>
    let job_role := pyStrip (d.job_role.getD [])
    let location := pyStrip (d.location.getD ("Pune".toList))
    if job_role.isEmpty then .badRequest ("Job role is required".toList)
    else if job_role.length < 2 then
      .badRequest ("Job role must be at least 2 characters".toList)
    else .accepted (job_role, location)

/-- Supported domains of the `/interview-questions` route (app.py:2179-2183). -/
def valid_domains : List Str :=
  ["DSA".toList, "SQL".toList, "OS".toList, "CN".toList, "DBMS".toList,
   "Machine Learning".toList, "Deep Learning".toList, "Python".toList,
   "Java".toList, "System Design".toList, "JavaScript".toList,
   "React".toList, "Node.js".toList, "Cloud Computing".toList,
   "DevOps".toList, "Cybersecurity".toList, "Blockchain".toList]

/-- JSON body of an `/interview-questions` request, restricted to the fields
the route reads. -/
structure InterviewRequest where
  domain : Option Str
  company : Option Str
  difficulty : Option Str
  question_count : Option Int
  deriving Repr, DecidableEq

/-- Embeds the `/interview-questions` route `search_interview_questions`
(app.py:2157-2222): parse the body (`question_count = min(
data.get('question_count', 10), 20)`, `company = ....strip() or None`,
`difficulty = ....lower()`), then reject a missing body, an empty or
too-short domain, or an unsupported domain, all before the search thread is
started; otherwise dispatch with the parsed arguments. -/
def search_interview_questions (data : Option InterviewRequest) :
    RouteOutcome (Str × Option Str × Str × Int) :=
  match data with
  | none => .badRequest ("No JSON data provided".toList)
  | some d =>
    let domain := pyStrip (d.domain.getD [])
    let company0 := pyStrip (d.company.getD [])
    let company : Option Str := if company0.isEmpty then none else some company0
    let difficulty := pyLower (d.difficulty.getD ("all".toList))
    let question_count : Int := min (d.question_count.getD 10) 20
    if domain.isEmpty then .badRequest ("Domain is required".toList)
    else if domain.length < 2 then
      .badRequest ("Domain must be at least 2 characters".toList)
    else if domain ∉ valid_domains then
      .badRequest ("Invalid domain".toList)
    else .accepted (domain, company, difficulty, question_count)

end App

/-! ### Concrete sample records used by witnesses and counterexamples -/

/-- Question record with every optional feature switched off. -/
def blankQuestion : Question :=
  { question := []
    domain := []
    company := []
    credibility_score := 0
    year := none
    question_type := []
    difficulty := []
    relevance_score := 0
    solution := [] }

/-- Job record with every optional feature switched off. -/
def blankJob : Job :=
  { title := []
    company := []
    url := []
    description := []
    source := []
    experience_level := []
    job_type := []
    posted_date := none
    relevance_score := 0 }

/-- Job whose only scoring feature is a posted date (day number 0). -/
def datedJob : Job :=
  { blankJob with title := "x".toList, company := "y".toList,
                  url := "u".toList, posted_date := some 0 }

/-- First arrival of the duplicate-collapse scenario: primary text
"ML Engineer - Acme", company "Acme". -/
def jML1 : Job :=
  { blankJob with title := "ML Engineer - Acme".toList,
                  company := "Acme".toList, url := "u1".toList }

/-- Second arrival of the duplicate-collapse scenario: primary text
"ml engineer @ acme", same company. -/
def jML2 : Job :=
  { blankJob with title := "ml engineer @ acme".toList,
                  company := "Acme".toList, url := "u2".toList }

/-- Job returned by the linkedin adapter in the misattribution run. -/
def jobL : Job :=
  { blankJob with title := "LJob".toList, company := "CL".toList,
                  url := "ul".toList }

/-- Job returned by the naukri adapter in the misattribution run. -/
def jobN : Job :=
  { blankJob with title := "NJob".toList, company := "CN".toList,
                  url := "un".toList }

/-- Scenario question scoring 10: domain match (5) + year 2023 (3) +
difficulty Medium (2). -/
def q10 : Question :=
  { blankQuestion with question := "sql a".toList, year := some 2023,
                       difficulty := "Medium".toList }

/-- Scenario question scoring 8 (earlier arrival): domain match (5) +
year 2023 (3). -/
def q8a : Question :=
  { blankQuestion with question := "sql b".toList, year := some 2023 }

/-- Scenario question scoring 8 (later arrival): domain match (5) +
credibility 3. -/
def q8b : Question :=
  { blankQuestion with question := "sql c".toList, credibility_score := 3 }

/-- Scenario question scoring 5: domain match only. -/
def q5 : Question :=
  { blankQuestion with question := "sql d".toList }

/-- Scenario question scoring 2: question-type bonus only, below the
relevance threshold. -/
def q2 : Question :=
  { blankQuestion with question := "e".toList,
                       question_type := "Coding".toList }

/-! ### General lemmas about the deduplication loop -/

theorem dedupByKeyAux_sublist (key : α → Str) (xs : List α) :
    ∀ seen : List Str, (dedupByKeyAux key xs seen).Sublist xs := by
  induction xs with
  | nil => intro seen; simp [dedupByKeyAux]
  | cons q qs ih =>
    intro seen
    simp only [dedupByKeyAux]
    by_cases hq : key q ∈ seen
    · rw [if_pos hq]
      exact (ih seen).cons q
    · rw [if_neg hq]
      exact (ih (key q :: seen)).cons₂ q

theorem dedupByKeyAux_mem (key : α → Str) (xs : List α) :
    ∀ (seen : List Str) (x : α),
      x ∈ dedupByKeyAux key xs seen ↔
        key x ∉ seen ∧ xs.find? (fun y => decide (key y = key x)) = some x := by
  induction xs with
  | nil => intro seen x; simp [dedupByKeyAux]
  | cons q qs ih =>
    intro seen x
    simp only [dedupByKeyAux]
    by_cases hk : key q = key x
    · have hfind : (q :: qs).find? (fun y => decide (key y = key x)) = some q :=
        List.find?_cons_of_pos _ (by simpa using hk)
      by_cases hq : key q ∈ seen
      · rw [if_pos hq]
        constructor
        · intro hmem
          exact absurd (hk ▸ hq) ((ih seen x).mp hmem).1
        · rintro ⟨hx, _⟩
          exact absurd (hk ▸ hq) hx
      · rw [if_neg hq, hfind]
        constructor
        · intro hmem
          rcases List.mem_cons.mp hmem with rfl | hmem2
          · exact ⟨fun h => hq (hk ▸ h), rfl⟩
          · have h2 := (ih (key q :: seen) x).mp hmem2
            exact absurd (List.mem_cons.mpr (Or.inl hk.symm)) h2.1
        · rintro ⟨_, hfx⟩
          have hqx : q = x := Option.some.inj hfx
          subst hqx
          exact List.mem_cons_self _ _
    · have hfind : (q :: qs).find? (fun y => decide (key y = key x)) =
          qs.find? (fun y => decide (key y = key x)) :=
        List.find?_cons_of_neg _ (by simpa using hk)
      rw [hfind]
      by_cases hq : key q ∈ seen
      · rw [if_pos hq]
        exact ih seen x
      · rw [if_neg hq]
        constructor
        · intro hmem
          rcases List.mem_cons.mp hmem with rfl | hmem2
          · exact absurd rfl hk
          · have h2 := (ih (key q :: seen) x).mp hmem2
            exact ⟨fun hmem3 => h2.1 (List.mem_cons_of_mem _ hmem3), h2.2⟩
        · rintro ⟨hx, hfx⟩
          refine List.mem_cons.mpr (Or.inr ((ih (key q :: seen) x).mpr ⟨?_, hfx⟩))
          intro hmem3
          rcases List.mem_cons.mp hmem3 with h | h
          · exact hk h.symm
          · exact hx h

theorem dedupByKeyAux_pairwise (key : α → Str) (xs : List α) :
    ∀ seen : List Str,
      (dedupByKeyAux key xs seen).Pairwise (fun a b => key a ≠ key b) := by
  induction xs with
  | nil => intro seen; simp [dedupByKeyAux]
  | cons q qs ih =>
    intro seen
    simp only [dedupByKeyAux]
    by_cases hq : key q ∈ seen
    · rw [if_pos hq]; exact ih seen
    · rw [if_neg hq]
      refine List.Pairwise.cons ?_ (ih (key q :: seen))
      intro b hb hkey
      have hnotin := ((dedupByKeyAux_mem key qs (key q :: seen) b).mp hb).1
      exact hnotin (List.mem_cons.mpr (Or.inl hkey.symm))

theorem dedupByKeyAux_fixed (key : α → Str) (xs : List α) :
    ∀ seen : List Str, xs.Pairwise (fun a b => key a ≠ key b) →
      (∀ x ∈ xs, key x ∉ seen) → dedupByKeyAux key xs seen = xs := by
  induction xs with
  | nil => intro seen _ _; rfl
  | cons q qs ih =>
    intro seen hpw hseen
    simp only [dedupByKeyAux]
    rw [if_neg (hseen q (List.mem_cons_self _ _))]
    congr 1
    refine ih (key q :: seen) (List.Pairwise.of_cons hpw) ?_
    intro x hx hmem
    rcases List.mem_cons.mp hmem with h | h
    · exact (List.rel_of_pairwise_cons hpw hx) h.symm
    · exact hseen x (List.mem_cons_of_mem _ hx) h

/-! ### Length lemmas for Python slicing -/

theorem pyTake_length_le (k : Int) (l : List α) :
    (pyTake k l).length ≤ l.length := by
  simp only [pyTake]
  split <;> (rw [List.length_take]; omega)

theorem pyTake_length_le_toNat {k : Int} (hk : 0 ≤ k) (l : List α) :
    (pyTake k l).length ≤ k.toNat := by
  simp only [pyTake, if_pos hk]
  rw [List.length_take]
  omega

/-! ### Nonnegativity of the relevance scorers -/

theorem keywordFoldl_nonneg (wTitle wDesc : Int) (hT : 0 ≤ wTitle)
    (hD : 0 ≤ wDesc) (title description : Str) :
    ∀ (kws : List Str) (s : Int), 0 ≤ s →
      0 ≤ kws.foldl (fun s kw =>
        s + (if pyIn kw title then wTitle else 0) +
          (if pyIn kw description then wDesc else 0)) s := by
  intro kws
  induction kws with
  | nil => intro s hs; simpa using hs
  | cons kw rest ih =>
    intro s hs
    simp only [List.foldl_cons]
    refine ih _ ?_
    split_ifs <;> omega

theorem keywordBonus_nonneg (wTitle wDesc : Int) (hT : 0 ≤ wTitle)
    (hD : 0 ≤ wDesc) (title description : Str) (kws : List Str) :
    0 ≤ JobSearchEngine.keywordBonus wTitle wDesc title description kws := by
  simp only [JobSearchEngine.keywordBonus]
  exact keywordFoldl_nonneg wTitle wDesc hT hD title description kws 0 le_rfl

theorem calculate_relevance_nonneg (job : Job) (job_role : Str) (today : Int) :
    0 ≤ JobSearchEngine._calculate_relevance job job_role today := by
  have h2 := keywordBonus_nonneg 8 3 (by norm_num) (by norm_num)
    (pyLower job.title) (pyLower job.description) (pySplit (pyLower job_role))
  have h3 := keywordBonus_nonneg 10 5 (by norm_num) (by norm_num)
    (pyLower job.title) (pyLower job.description) JobSearchEngine.ai_ml_keywords
  simp only [JobSearchEngine._calculate_relevance]
  cases hpd : job.posted_date <;> dsimp only <;> split_ifs <;> omega

theorem calculate_relevance_score_nonneg (question : Question) (domain : Str)
    (company : Option Str) :
    0 ≤ InterviewQuestionAPI._calculate_relevance_score question domain company := by
  have hcred : (0 : Int) ≤ (question.credibility_score : Int) := Int.natCast_nonneg _
  simp only [InterviewQuestionAPI._calculate_relevance_score]
  cases hy : question.year <;> cases company <;> dsimp only <;>
    split_ifs <;> omega

/-! ### Membership tracing through the job pipeline -/

theorem dedupScoreJobs_mem (job_role : Str) (today : Int) (jobs : List Job) :
    ∀ (seen : List Str) (x : Job),
      x ∈ JobSearchEngine.dedupScoreJobs job_role today jobs seen →
      ∃ j0 ∈ jobs,
        x = { j0 with relevance_score :=
                JobSearchEngine._calculate_relevance j0 job_role today } := by
  induction jobs with
  | nil => intro seen x h; simp [JobSearchEngine.dedupScoreJobs] at h
  | cons j js ih =>
    intro seen x h
    simp only [JobSearchEngine.dedupScoreJobs] at h
    split_ifs at h with hcond
    · rcases List.mem_cons.mp h with rfl | hmem
      · exact ⟨j, List.mem_cons_self _ _, rfl⟩
      · obtain ⟨j0, hj0, hx⟩ := ih _ x hmem
        exact ⟨j0, List.mem_cons_of_mem _ hj0, hx⟩
    · obtain ⟨j0, hj0, hx⟩ := ih _ x h
      exact ⟨j0, List.mem_cons_of_mem _ hj0, hx⟩

theorem remove_duplicates_and_rank_mem (jobs : List Job) (job_role : Str)
    (today : Int) (x : Job)
    (h : x ∈ JobSearchEngine._remove_duplicates_and_rank jobs job_role today) :
    ∃ j0 ∈ jobs,
      x = { j0 with relevance_score :=
              JobSearchEngine._calculate_relevance j0 job_role today } := by
  simp only [JobSearchEngine._remove_duplicates_and_rank] at h
  have h1 := List.mem_of_mem_take h
  have h2 := (List.perm_insertionSort JobSearchEngine.scoreDescJ _).mem_iff.mp h1
  exact dedupScoreJobs_mem job_role today jobs [] x h2

theorem collectLoop_snd_mem (outcomes : List (Option (List Job))) :
    ∀ (order : List Nat) (i : Nat) (sources : List (Str × List Job))
      (all_jobs : List Job) (j : Job),
      j ∈ (JobSearchEngine.collectLoop outcomes order i sources all_jobs).2 →
      j ∈ all_jobs ∨ ∃ idx ∈ order, ∃ source_jobs,
        outcomes.getD idx none = some source_jobs ∧ j ∈ source_jobs := by
  intro order
  induction order with
  | nil => intro i sources all_jobs j h; exact Or.inl h
  | cons idx rest ih =>
    intro i sources all_jobs j h
    simp only [JobSearchEngine.collectLoop] at h
    rcases hout : outcomes.getD idx none with _ | source_jobs
    · rw [hout] at h
      rcases ih _ _ _ j h with hl | ⟨idx2, hidx2, js, hjs, hj⟩
      · exact Or.inl hl
      · exact Or.inr ⟨idx2, List.mem_cons_of_mem _ hidx2, js, hjs, hj⟩
    · rw [hout] at h
      rcases ih _ _ _ j h with hl | ⟨idx2, hidx2, js, hjs, hj⟩
      · rcases List.mem_append.mp hl with hl2 | hr2
        · exact Or.inl hl2
        · exact Or.inr ⟨idx, List.mem_cons_self _ _, source_jobs, hout, hr2⟩
      · exact Or.inr ⟨idx2, List.mem_cons_of_mem _ hidx2, js, hjs, hj⟩

theorem api_length_le_ten (chunks : List (List Question)) (domain : Str)
    (company : Option Str) (solve : Question → Str) :
    (InterviewQuestionAPI.search_interview_questions chunks domain company solve
        10).length ≤ 10 := by
  simp only [InterviewQuestionAPI.search_interview_questions,
    InterviewQuestionAPI._enhance_questions_with_detailed_solutions,
    List.length_map]
  have h := pyTake_length_le_toNat (by norm_num : (0 : Int) ≤ 10)
    (InterviewQuestionAPI._filter_relevant_questions
      (InterviewQuestionAPI._remove_duplicate_questions
        (InterviewQuestionAPI.gatherUpTo 10 chunks [])) domain company)
  simpa using h

/-! ### The claims -/

/-- Claim C1, counterexample to the claim as stated: the job relevance score
of a fixed (item, query) pair is NOT independent of the current clock time —
`datedJob` (posted on day 0) earns the 8-point recency bonus when scored 5
days later but only the 4-point bonus when scored 20 days later
(app.py:1897-1907 reads `datetime.now()`). -/
theorem C1_counterexample :
    JobSearchEngine._calculate_relevance datedJob ("r".toList) 5 ≠
      JobSearchEngine._calculate_relevance datedJob ("r".toList) 20 := by decide

/-- Claim C1 (amended): every relevance score is a nonnegative integer and a
deterministic function of its explicit inputs; the interview-question scorer
depends only on the (item, query) pair; the job scorer additionally reads
the current date, but only through the recency bonus — for a job with no
parsable posted date the job score too is independent of the clock. -/
theorem C1_scoring_determinism :
    (∀ (job : Job) (job_role : Str) (today : Int),
        0 ≤ JobSearchEngine._calculate_relevance job job_role today) ∧
    (∀ (question : Question) (domain : Str) (company : Option Str),
        0 ≤ InterviewQuestionAPI._calculate_relevance_score question domain company) ∧
    (∀ (job : Job) (job_role : Str) (t t' : Int), job.posted_date = none →
        JobSearchEngine._calculate_relevance job job_role t =
          JobSearchEngine._calculate_relevance job job_role t') := by
  refine ⟨calculate_relevance_nonneg, calculate_relevance_score_nonneg, ?_⟩
  intro job job_role t t' hpd
  simp only [JobSearchEngine._calculate_relevance, hpd]

/-- Claim C1, witness for the amended statement. -/
theorem C1_scoring_determinism_witness :
    (0 ≤ JobSearchEngine._calculate_relevance datedJob ("r".toList) 5) ∧
    (0 ≤ InterviewQuestionAPI._calculate_relevance_score q10 ("SQL".toList) none) ∧
    JobSearchEngine._calculate_relevance blankJob ("r".toList) 5 =
      JobSearchEngine._calculate_relevance blankJob ("r".toList) 20 :=
  ⟨C1_scoring_determinism.1 datedJob ("r".toList) 5,
   C1_scoring_determinism.2.1 q10 ("SQL".toList) none,
   C1_scoring_determinism.2.2 blankJob ("r".toList) 5 20 rfl⟩

/-- Claim C2, counterexample to the claim as stated: a request carrying
question_count 0 passes validation and is dispatched with an effective count
of 0 — below the claimed lower bound of 1; app.py:2169 computes only
`min(question_count, 20)` with no lower clamp. -/
theorem C2_counterexample :
    App.search_interview_questions
        (some { domain := some ("DSA".toList), company := none,
                difficulty := none, question_count := some 0 }) =
      App.RouteOutcome.accepted ("DSA".toList, none, "all".toList, 0) ∧
    ¬ ((1 : Int) ≤ 0) := by decide

/-- Claim C2 (amended): the effective question count of every dispatched
interview-question request equals min(supplied, 20) with default 10 when
absent; it never exceeds the hard maximum 20, and it is at least 1 whenever
the caller supplies a value of at least 1 (or omits it) — but zero and
negative supplied values pass through un-clamped. -/
theorem C2_question_count_clamp :
    ∀ (d : App.InterviewRequest) (out : Str × Option Str × Str × Int),
      App.search_interview_questions (some d) = App.RouteOutcome.accepted out →
      out.2.2.2 = min (d.question_count.getD 10) 20 ∧
      out.2.2.2 ≤ 20 ∧
      (1 ≤ d.question_count.getD 10 → 1 ≤ out.2.2.2) := by
  intro d out h
  simp only [App.search_interview_questions] at h
  split_ifs at h <;>
  first
    | exact App.RouteOutcome.noConfusion h
    | · have heq := App.RouteOutcome.accepted.inj h
        subst heq
        refine ⟨rfl, ?_, ?_⟩
        · show min (d.question_count.getD 10) 20 ≤ 20
          omega
        · intro h1
          show 1 ≤ min (d.question_count.getD 10) 20
          omega

/-- Claim C2, witness for the amended statement. -/
theorem C2_question_count_clamp_witness :
    (20 : Int) = min (Option.getD (some (50 : Int)) 10) 20 ∧ (20 : Int) ≤ 20 ∧
      (1 ≤ Option.getD (some (50 : Int)) 10 → (1 : Int) ≤ 20) :=
  C2_question_count_clamp
    { domain := some ("DSA".toList), company := none, difficulty := none,
      question_count := some 50 }
    ("DSA".toList, none, "all".toList, 20) (by decide)

/-- Claim C3 fails on the code: the collection loop labels the i-th
COMPLETED future with source_names[i] (app.py:1716-1721), so when the naukri
task (submission index 1) completes before the linkedin task (submission
index 0), the per-source mapping records the naukri adapter's items under
the name "linkedin" — not the items that the linkedin adapter returned. -/
theorem C3_source_misattribution :
    JobSearchEngine.source_names.getD 0 [] = "linkedin".toList ∧
    [some [jobL], some [jobN], some [], some [], some []].getD 0 none = some [jobL] ∧
    (JobSearchEngine.comprehensive_job_search ("r".toList) 0
        [some [jobL], some [jobN], some [], some [], some []]
        [1, 0, 2, 3, 4]).sources.lookup ("linkedin".toList) = some [jobN] ∧
    jobN ≠ jobL := by decide

/-- Claim C4: the session always finishes in the COMPLETED state — in
particular whenever at least one adapter returned items, however many others
raised or timed out — because `_safe_search` converts adapter exceptions to
empty results and a timed-out future is skipped by `continue`; and every job
in the final result set originates from a task that returned (a succeeding
adapter), rescored by the Ranker. Since adapter behaviour never produces
FAILED, "FAILED only if all adapters failed or a pre-dispatch validation
error occurred" holds. -/
theorem C4_partial_failure_tolerance :
    ∀ (job_role : Str) (today : Int) (outcomes : List (Option (List Job)))
      (order : List Nat),
      (JobSearchEngine.comprehensive_job_search job_role today outcomes
          order).search_status = "completed".toList ∧
      ∀ j ∈ (JobSearchEngine.comprehensive_job_search job_role today outcomes
          order).all_jobs,
        ∃ idx ∈ order, ∃ source_jobs,
          outcomes.getD idx none = some source_jobs ∧
          ∃ j0 ∈ source_jobs,
            j = { j0 with relevance_score :=
                    JobSearchEngine._calculate_relevance j0 job_role today } := by
  intro job_role today outcomes order
  refine ⟨rfl, ?_⟩
  intro j hj
  obtain ⟨j0, hj0, heq⟩ := remove_duplicates_and_rank_mem _ job_role today j hj
  rcases collectLoop_snd_mem outcomes order 0 [] [] j0 hj0 with
    h | ⟨idx, hidx, js, hjs, hj0js⟩
  · exact absurd h (List.not_mem_nil _)
  · exact ⟨idx, hidx, js, hjs, j0, hj0js, heq⟩

/-- Claim C4, witness: a run with the single succeeding adapter task. -/
theorem C4_partial_failure_tolerance_witness :
    (JobSearchEngine.comprehensive_job_search ("r".toList) 0 [some [jobL]]
        [0]).search_status = "completed".toList ∧
    ∃ idx ∈ [0], ∃ source_jobs,
      [some [jobL]].getD idx none = some source_jobs ∧
      ∃ j0 ∈ source_jobs,
        ({ jobL with relevance_score :=
             JobSearchEngine._calculate_relevance jobL ("r".toList) 0 } : Job) =
          { j0 with relevance_score :=
              JobSearchEngine._calculate_relevance j0 ("r".toList) 0 } :=
  ⟨(C4_partial_failure_tolerance ("r".toList) 0 [some [jobL]] [0]).1,
   (C4_partial_failure_tolerance ("r".toList) 0 [some [jobL]] [0]).2 _ (by decide)⟩

/-- Claim C5: the Deduplicator keeps exactly the first-arriving item of each
normalized-key class, preserving arrival order (stated as: the output is a
sublist of the input, and an item survives exactly when it is the `find?`-
first item of its key class); and the scenario: the jobs titled
"ML Engineer - Acme" and "ml engineer @ acme" with the same company
normalize to the same key and collapse to exactly the first-seen item. -/
theorem C5_dedup_first_wins :
    (∀ qs : List Question,
        (InterviewQuestionAPI._remove_duplicate_questions qs).Sublist qs) ∧
    (∀ (qs : List Question) (x : Question),
        x ∈ InterviewQuestionAPI._remove_duplicate_questions qs ↔
          qs.find? (fun y => decide (InterviewQuestionAPI.questionKey y =
            InterviewQuestionAPI.questionKey x)) = some x) ∧
    JobSearchEngine._create_job_hash jML1 = JobSearchEngine._create_job_hash jML2 ∧
    JobSearchEngine._remove_duplicates_and_rank [jML1, jML2]
        ("ml engineer".toList) 0 =
      [{ jML1 with relevance_score :=
           JobSearchEngine._calculate_relevance jML1 ("ml engineer".toList) 0 }] := by
  refine ⟨?_, ?_, by decide, by decide⟩
  · intro qs
    exact dedupByKeyAux_sublist _ qs []
  · intro qs x
    have h := dedupByKeyAux_mem InterviewQuestionAPI.questionKey qs [] x
    simpa using h

/-- Claim C6: the ranked results are sorted by descending relevance score
with equal-score items kept in arrival order (pairwise-descending output,
and pair-stability with respect to the scored input sequence), for both the
question and the job pipeline; and the scenario: with cap 3 and scored items
[10, 8, 8, 5, 2], the result is the items scoring [10, 8, 8] with the two
8-scoring items in arrival order. -/
theorem C6_ranked_order :
    (∀ (qs : List Question) (domain : Str) (company : Option Str),
        (InterviewQuestionAPI._filter_relevant_questions qs domain
            company).Pairwise InterviewQuestionAPI.scoreDescQ) ∧
    (∀ (qs : List Question) (domain : Str) (company : Option Str)
        (a b : Question),
        a.relevance_score = b.relevance_score →
        [a, b].Sublist (InterviewQuestionAPI.scoredQuestions qs domain company) →
        [a, b].Sublist (InterviewQuestionAPI._filter_relevant_questions qs
          domain company)) ∧
    (∀ (jobs : List Job) (job_role : Str) (today : Int),
        (JobSearchEngine._remove_duplicates_and_rank jobs job_role
            today).Pairwise JobSearchEngine.scoreDescJ) ∧
    pyTake 3 (InterviewQuestionAPI._filter_relevant_questions
        [q10, q8a, q8b, q5, q2] ("SQL".toList) none) =
      [{ q10 with relevance_score := 10 }, { q8a with relevance_score := 8 },
       { q8b with relevance_score := 8 }] := by
  refine ⟨?_, ?_, ?_, by decide⟩
  · intro qs domain company
    exact List.sorted_insertionSort _ _
  · intro qs domain company a b hab hsub
    exact List.pair_sublist_insertionSort (le_of_eq hab.symm) hsub
  · intro jobs job_role today
    exact List.Pairwise.sublist (List.take_sublist _ _)
      (List.sorted_insertionSort _ _)

/-- Claim C6, witness: two equal-scoring questions keep arrival order. -/
theorem C6_ranked_order_witness :
    [{ q8a with relevance_score := 8 },
     { q8b with relevance_score := 8 }].Sublist
      (InterviewQuestionAPI._filter_relevant_questions [q8a, q8b]
        ("SQL".toList) none) :=
  C6_ranked_order.2.1 [q8a, q8b] ("SQL".toList) none _ _ (by decide) (by decide)

/-- Claim C7: the final result set is bounded — the job pipeline returns at
most its fixed maximum of 50 ranked jobs, and for every nonnegative
requested count the interview-question pipeline returns at most
min(question_count, 20) questions. -/
theorem C7_result_cap :
    (∀ (jobs : List Job) (job_role : Str) (today : Int),
        (JobSearchEngine._remove_duplicates_and_rank jobs job_role
            today).length ≤ 50) ∧
    (∀ (chunks : List (List Question)) (domain : Str) (company : Option Str)
        (solve : Question → Str) (question_count : Int), 0 ≤ question_count →
        ((JobSearchEngine.search_interview_questions chunks domain company
            solve question_count).length : Int) ≤ min question_count 20) := by
  constructor
  · intro jobs job_role today
    simp only [JobSearchEngine._remove_duplicates_and_rank]
    rw [List.length_take]
    omega
  · intro chunks domain company solve question_count hqc
    have h10 := api_length_le_ten chunks domain company solve
    have hle : (JobSearchEngine.search_interview_questions chunks domain
        company solve question_count).length ≤
        (InterviewQuestionAPI.search_interview_questions chunks domain company
          solve 10).length := pyTake_length_le _ _
    have hqcle : (JobSearchEngine.search_interview_questions chunks domain
        company solve question_count).length ≤ question_count.toNat :=
      pyTake_length_le_toNat hqc _
    refine le_min ?_ ?_ <;> omega

/-- Claim C7, witness at requested count 3. -/
theorem C7_result_cap_witness :
    (0 : Int) ≤ 3 ∧
    ((JobSearchEngine.search_interview_questions [[q10]] ("SQL".toList) none
        (fun _ => []) 3).length : Int) ≤ min 3 20 :=
  ⟨by norm_num,
   C7_result_cap.2 [[q10]] ("SQL".toList) none (fun _ => []) 3 (by norm_num)⟩

/-- Claim C8: the Deduplicator is idempotent — applying
`_remove_duplicate_questions` to its own output returns that output
unchanged, order included. -/
theorem C8_dedup_idempotent :
    ∀ qs : List Question,
      InterviewQuestionAPI._remove_duplicate_questions
          (InterviewQuestionAPI._remove_duplicate_questions qs) =
        InterviewQuestionAPI._remove_duplicate_questions qs := by
  intro qs
  simp only [InterviewQuestionAPI._remove_duplicate_questions]
  refine dedupByKeyAux_fixed _ _ []
    (dedupByKeyAux_pairwise _ qs []) ?_
  intro x _
  exact List.not_mem_nil _

/-- Claim C9: a request whose subject is empty or shorter than 2 characters,
and an interview-question request whose domain is outside the supported set,
is rejected with a validation error before dispatch — the route returns a
400 response and starts no background search (zero adapter calls). -/
theorem C9_validation_before_dispatch :
    (∀ d : App.JobRequest, (pyStrip (d.job_role.getD [])).length < 2 →
        App.dispatchesSearch (App.search_jobs (some d)) = false) ∧
    (∀ d : App.InterviewRequest,
        (pyStrip (d.domain.getD [])).length < 2 ∨
          pyStrip (d.domain.getD []) ∉ App.valid_domains →
        App.dispatchesSearch (App.search_interview_questions (some d)) = false) := by
  constructor
  · intro d h
    simp only [App.search_jobs]
    split_ifs <;> rfl
  · intro d h
    simp only [App.search_interview_questions]
    split_ifs with h1 h2 h3 <;>
    first
      | rfl
      | · rcases h with h | h
          · exact absurd h h2
          · exact absurd h3 h

/-- Claim C9, witness: an empty job role and an unsupported domain are both
rejected without dispatch. -/
theorem C9_validation_before_dispatch_witness :
    App.dispatchesSearch (App.search_jobs
        (some { job_role := some [], location := none })) = false ∧
    App.dispatchesSearch (App.search_interview_questions
        (some { domain := some ("Quantum Computing".toList), company := none,
                difficulty := none, question_count := some 5 })) = false :=
  ⟨C9_validation_before_dispatch.1 _ (by decide),
   C9_validation_before_dispatch.2 _ (by decide)⟩

/-- Claim C10: the engine's interview-question search returns at most 10
questions for EVERY requested count, because the orchestration layer invokes
the question-search API without forwarding question_count (app.py:1767), the
API gathers and truncates against its default target of 10, and the engine's
own truncation can only shrink the list. -/
theorem C10_default_ten_cap :
    ∀ (chunks : List (List Question)) (domain : Str) (company : Option Str)
      (solve : Question → Str) (question_count : Int),
      (JobSearchEngine.search_interview_questions chunks domain company solve
          question_count).length ≤ 10 := by
  intro chunks domain company solve question_count
  have h10 := api_length_le_ten chunks domain company solve
  have hle := pyTake_length_le question_count
    (InterviewQuestionAPI.search_interview_questions chunks domain company
      solve 10)
  exact le_trans hle h10

end SymbiosisCareer
